import Mathlib

/-!
Verification of the quiz-set generation and document-assembly pipeline
(`app.py`, `services/pdf_service.py`) against its natural-language
specification, via a shallow embedding of the relevant Python code.

Embedding conventions:
* a pandas DataFrame of word records is a `List` of row structures,
  in row order;
* `pd.to_numeric(col, errors="coerce")` applied to the `number` column is
  modelled by giving each row a `number : Option Int` field (`none` is a
  non-coercible / NaN cell);
* `df.sample(n=n)` (uniform sampling without replacement) is modelled by
  taking the first `n` entries of an arbitrary permutation of the filtered
  pool; the permutation is the random source, quantified in the theorems;
* a PDF is a list of pages (`merge`), a story of flowables (`build_pdf`),
  or an opaque byte identifier (`download_zip`), depending on which
  aspect a claim is about;
* Flask `flash` + `redirect` error exits are modelled by `Except` with a
  distinct error constructor per exit site of the source.
-/

namespace VocabQuiz

/-! Selector: `n = min(num_questions, len(df))` and `df.sample(n=n)`
    (app.py lines 414 and 441) -/

/-- Models `n = min(num_questions, len(df))` from `app.py` line 414:
the effective sample size for one set. -/
def sampleSize (numQuestions : Nat) (poolLen : Nat) : Nat :=
  min numQuestions poolLen

/-- Models `df.sample(n=n).reset_index(drop=True)` from `app.py` line 441.
Uniform sampling of `n` rows without replacement is, observationally, taking
the first `n` rows of a uniformly random permutation `shuffled` of the
filtered pool; the permutation argument is the random source. -/
def dfSample {α : Type} (shuffled : List α) (n : Nat) : List α :=
  shuffled.take n

/-! Document Combiner, Merge: `_merge_pdf_bytes_in_order`
    (app.py lines 243-256) -/

/-- Models `_merge_pdf_bytes_in_order` from `app.py` lines 243-256.
A PDF document is a list of pages; for each input document the code appends
every one of its pages, in order, to the writer (`writer.add_page(page)`),
starting from an empty writer. -/
def merge_pdf_bytes_in_order {Page : Type} (pdf_bytes_list : List (List Page)) : List Page :=
  pdf_bytes_list.foldl (fun writer reader => reader.foldl (fun w page => w ++ [page]) writer) []

/-- Appending each element of `l` one at a time to `acc` is `acc ++ l`. -/
theorem foldl_push_eq_append {α : Type} (l : List α) (acc : List α) :
    l.foldl (fun w page => w ++ [page]) acc = acc ++ l := by
  induction l generalizing acc with
  | nil => simp
  | cons x xs ih => simp [List.foldl_cons, ih, List.append_assoc]

/-- Folding page-appends of every document over an accumulator concatenates
the documents after the accumulator. -/
theorem foldl_merge_eq_flatten {Page : Type} (docs : List (List Page)) (acc : List Page) :
    docs.foldl (fun writer reader => reader.foldl (fun w page => w ++ [page]) writer) acc
      = acc ++ docs.flatten := by
  induction docs generalizing acc with
  | nil => simp
  | cons d ds ih =>
      rw [List.foldl_cons, foldl_push_eq_append, ih, List.flatten_cons, List.append_assoc]

/-- C5: the merged document is exactly the concatenation, in input order, of
the input documents' pages, and its page count is the sum of the input page
counts. -/
theorem merge_pages_concat_and_count {Page : Type} (docs : List (List Page)) :
    merge_pdf_bytes_in_order docs = docs.flatten ∧
    (merge_pdf_bytes_in_order docs).length = (docs.map List.length).sum := by
  have h : merge_pdf_bytes_in_order docs = docs.flatten := by
    simpa using foldl_merge_eq_flatten docs []
  exact ⟨h, by rw [h]; exact List.length_flatten docs⟩

/-- C1: the drawn sample has exactly `min(requested_count, |filtered_pool|)`
rows, every sampled row is a row of the filtered pool, and no pool row is
drawn more often than it occurs in the pool (sampling without replacement). -/
theorem sample_bounded_no_replacement {α : Type} [DecidableEq α]
    (pool shuffled : List α) (count : Nat) (hperm : shuffled.Perm pool) :
    (dfSample shuffled (sampleSize count pool.length)).length = min count pool.length ∧
    (∀ r ∈ dfSample shuffled (sampleSize count pool.length), r ∈ pool) ∧
    (∀ r, (dfSample shuffled (sampleSize count pool.length)).count r ≤ pool.count r) := by
  have hlen : shuffled.length = pool.length := hperm.length_eq
  have hsub : List.Subperm (dfSample shuffled (sampleSize count pool.length)) pool :=
    ((List.take_sublist _ _).subperm).trans hperm.subperm
  refine ⟨?_, ?_, ?_⟩
  · simp [dfSample, sampleSize, hlen, Nat.min_assoc]
  · intro r hr
    exact hperm.mem_iff.mp (List.mem_of_mem_take hr)
  · intro r
    exact hsub.count_le r

/-- C1 witness: a concrete pool, permutation and count. -/
theorem sample_bounded_no_replacement_witness :
    ([3, 1, 2] : List Nat).Perm [1, 2, 3] ∧
    ((dfSample [3, 1, 2] (sampleSize 2 ([1, 2, 3] : List Nat).length)).length
        = min 2 ([1, 2, 3] : List Nat).length ∧
      (∀ r ∈ dfSample [3, 1, 2] (sampleSize 2 ([1, 2, 3] : List Nat).length), r ∈ [1, 2, 3]) ∧
      (∀ r, (dfSample [3, 1, 2] (sampleSize 2 ([1, 2, 3] : List Nat).length)).count r
          ≤ ([1, 2, 3] : List Nat).count r)) :=
  ⟨by decide, sample_bounded_no_replacement [1, 2, 3] [3, 1, 2] 2 (by decide)⟩

/-! Layout Engine: `build_pdf` (services/pdf_service.py lines 96-153)

The Python signature is `build_pdf(df, styles, with_answers=False)`: the
function accepts no `question_col`, `answer_col` or `title` parameter, and
its body hard-codes `q_text = str(r["word"])` and
`ans_text = str(r["meaning"]) if with_answers else None`. -/

/-- One row handed to `build_pdf`: the columns its body reads. `number` is
`Option Int` — `some` when `int(r["number"])` succeeds (the `try` branch of
lines 115-118), `none` when the cell is non-coercible. -/
structure PdfRow where
  number : Option Int
  word : String
  meaning : String
deriving DecidableEq

/-- One cell of the 11-column ReportLab `Table` built by `build_pdf`: a
filler string `""`, a `NumberBox`, a `RoundedBox` prompt, or an `AnswerBox`
(whose text is `None` on question documents). -/
inductive Cell where
  | empty : Cell
  | numBox : Option Int → Cell
  | qBox : String → Cell
  | aBox : Option String → Cell
deriving DecidableEq

/-- The answer-box text of `build_pdf` line 121:
`str(r["meaning"]) if with_answers else None`. -/
def ansTextOf (with_answers : Bool) (r : PdfRow) : Option String :=
  if with_answers then some r.meaning else none

/-- The loop of `build_pdf` lines 113-136: `for i, r in df.iterrows()`, with
`i` the dense 0-based index (the caller passes `sample.reset_index(drop=True)`).
Even `i` extends the pending `row` with the left-lane cells
`[NumberBox, "", RoundedBox, "", AnswerBox]`; odd `i` extends it with
`["", NumberBox, "", RoundedBox, "", AnswerBox]`, appends the completed row
to `data` and resets `row`. Returns the final `(data, row)` pair. -/
def buildDataGo (with_answers : Bool) :
    Nat → List Cell → List (List Cell) → List PdfRow → List (List Cell) × List Cell
  | _, row, data, [] => (data, row)
  | i, row, data, r :: rest =>
      let ansText := ansTextOf with_answers r
      if i % 2 = 0 then
        buildDataGo with_answers (i + 1)
          (row ++ [Cell.numBox r.number, Cell.empty, Cell.qBox r.word, Cell.empty,
            Cell.aBox ansText])
          data rest
      else
        buildDataGo with_answers (i + 1) []
          (data ++ [row ++ [Cell.empty, Cell.numBox r.number, Cell.empty, Cell.qBox r.word,
            Cell.empty, Cell.aBox ansText]])
          rest

/-- The trailing-row padding of `build_pdf` lines 138-140:
`while len(row) < len(colWidths): row.append("")` with `len(colWidths) = 11`. -/
def padRow (row : List Cell) : List Cell :=
  row ++ List.replicate (11 - row.length) Cell.empty

/-- The table data of `build_pdf`: run the row loop from index 0 with empty
accumulators, then append the padded trailing row when it is non-empty
(`if row: ... data.append(row)`). -/
def buildData (df : List PdfRow) (with_answers : Bool) : List (List Cell) :=
  let st := buildDataGo with_answers 0 [] [] df
  if st.2.isEmpty then st.1 else st.1 ++ [padRow st.2]

/-- The five cells of one lane (index box, gap, prompt box, gap, answer box)
for one sampled row, as `build_pdf` lays them out. -/
def laneCells (with_answers : Bool) (r : PdfRow) : List Cell :=
  [Cell.numBox r.number, Cell.empty, Cell.qBox r.word, Cell.empty,
    Cell.aBox (ansTextOf with_answers r)]

/-- Modelled from the spec's words (lane-pairing rule, for comparison with
`buildData`): rows are paired in encounter order, row `i` goes to the left
lane when `i` is even and to the right lane when `i` is odd, every two
consecutive rows form one grid row, and a trailing unpaired row occupies the
left lane alone with the right lane left blank. -/
def lanePairingSpec (with_answers : Bool) : List PdfRow → List (List Cell)
  | [] => []
  | [r] => [laneCells with_answers r ++ List.replicate 6 Cell.empty]
  | r1 :: r2 :: rest =>
      (laneCells with_answers r1 ++ Cell.empty :: laneCells with_answers r2)
        :: lanePairingSpec with_answers rest

/-- Finishing step shared by `buildData` and the loop lemma. -/
def finishData (st : List (List Cell) × List Cell) : List (List Cell) :=
  if st.2.isEmpty then st.1 else st.1 ++ [padRow st.2]

/-- Loop invariant: starting from an even index with an empty pending row,
the `build_pdf` loop followed by trailing-row padding appends exactly the
spec's lane pairing of the remaining rows. -/
theorem buildDataGo_even_eq (w : Bool) :
    ∀ (df : List PdfRow) (i : Nat) (data : List (List Cell)), i % 2 = 0 →
      finishData (buildDataGo w i [] data df) = data ++ lanePairingSpec w df
  | [], i, data, _ => by simp [buildDataGo, finishData, lanePairingSpec]
  | [r], i, data, hi => by
      have h1 : (i + 1) % 2 = 1 := by omega
      simp only [buildDataGo, hi, if_pos rfl, reduceIte]
      simp [finishData, lanePairingSpec, laneCells, padRow, List.replicate]
  | r1 :: r2 :: rest, i, data, hi => by
      have h1 : ¬ (i + 1) % 2 = 0 := by omega
      have h2 : (i + 2) % 2 = 0 := by omega
      simp only [buildDataGo, hi, h1, if_true, if_false, eq_self_iff_true, List.nil_append]
      rw [buildDataGo_even_eq w rest (i + 1 + 1) _ h2]
      simp [lanePairingSpec, laneCells, List.append_assoc]

/-- The table data built by `build_pdf` equals the spec's lane pairing
(shared helper). -/
theorem buildData_eq_spec (df : List PdfRow) (w : Bool) :
    buildData df w = lanePairingSpec w df := by
  have h := buildDataGo_even_eq w df 0 [] rfl
  simpa [buildData, finishData] using h

/-- C4: the table data built by `build_pdf` equals the spec's lane-pairing of
the sampled sequence — row `i` (0-based, encounter order) is placed in the
left lane when `i` is even and the right lane when `i` is odd, two
consecutive rows form one grid row, and an odd-length sequence ends with a
grid row whose left lane holds the trailing row and whose right lane is
blank. -/
theorem buildData_lane_pairing (df : List PdfRow) (w : Bool) :
    buildData df w = lanePairingSpec w df :=
  buildData_eq_spec df w

/-- Erase the content of every answer box, keeping every other cell (in
particular every `NumberBox` and every `RoundedBox` prompt) unchanged. -/
def eraseCellAnswer : Cell → Cell
  | Cell.aBox _ => Cell.aBox none
  | c => c

/-- Erase all answer-box content of a table data grid. -/
def eraseAnswers (data : List (List Cell)) : List (List Cell) :=
  data.map (fun row => row.map eraseCellAnswer)

/-- Erasing answers in one lane yields that lane with `with_answers = false`. -/
theorem eraseCellAnswer_lane (w : Bool) (r : PdfRow) :
    (laneCells w r).map eraseCellAnswer = laneCells false r := by
  simp [laneCells, eraseCellAnswer, ansTextOf]

/-- Erasing all answer content from the spec's lane pairing yields the
`with_answers = false` pairing (shared helper, two-step recursion mirroring
`lanePairingSpec`). -/
theorem eraseAnswers_lanePairing (w : Bool) :
    ∀ l : List PdfRow, eraseAnswers (lanePairingSpec w l) = lanePairingSpec false l
  | [] => by simp [lanePairingSpec, eraseAnswers]
  | [r] => by
      simp [lanePairingSpec, eraseAnswers, eraseCellAnswer_lane,
        List.map_append, List.map_replicate, eraseCellAnswer]
  | r1 :: r2 :: rest => by
      have ih := eraseAnswers_lanePairing w rest
      simp only [lanePairingSpec, eraseAnswers, List.map_cons, List.cons.injEq]
      constructor
      · simp [List.map_append, eraseCellAnswer_lane, eraseCellAnswer]
      · simpa [eraseAnswers] using ih

/-- C2: within one set both documents are rendered from the same sampled row
list `df`; erasing answer-box content from the answer document
(`with_answers = true`) yields exactly the question document
(`with_answers = false`), and the question document is unchanged by the
erasure — so for every row index the displayed number box and prompt box
agree between the two documents and only the answer-box content differs. -/
theorem question_answer_pairing (df : List PdfRow) :
    eraseAnswers (buildData df true) = buildData df false ∧
    eraseAnswers (buildData df false) = buildData df false := by
  rw [buildData_eq_spec df true, buildData_eq_spec df false]
  exact ⟨eraseAnswers_lanePairing true df, eraseAnswers_lanePairing false df⟩

/-! Quiz mode dispatch (app.py lines 416-424) -/

/-- A column of the word table that a quiz mode can display. -/
inductive QField where
  | word : QField
  | meaning : QField
deriving DecidableEq

/-- A quiz mode: which column is the prompt, which is the answer, and the
title label, as selected in `app.py` lines 416-424. -/
structure QuizModeSpec where
  questionField : QField
  answerField : QField
  label : String
deriving DecidableEq

/-- Mode `"en-ja"`: `question_col, answer_col = "word", "meaning"`,
`title_base = "英和"` (app.py lines 416-418). -/
def enJaMode : QuizModeSpec :=
  { questionField := QField.word, answerField := QField.meaning, label := "英和" }

/-- Mode `"ja-en"`: `question_col, answer_col = "meaning", "word"`,
`title_base = "和英"` (app.py lines 419-421). -/
def jaEnMode : QuizModeSpec :=
  { questionField := QField.meaning, answerField := QField.word, label := "和英" }

/-- The value of a quiz-mode field in a row. -/
def fieldValue (f : QField) (r : PdfRow) : String :=
  match f with
  | QField.word => r.word
  | QField.meaning => r.meaning

/-- C3 (code bug, evaluated at the failing input): in ja→en mode the prompt
box should render the mode's question field, `meaning`. But `build_pdf`
hard-codes `q_text = str(r["word"])` (line 120) and accepts no
`question_col` parameter, so for the row `{word := "cat", meaning := "neko"}`
its grid renders the prompt box as `"cat"`, while the ja→en mode's question
field value is `"neko"`. -/
theorem jaEn_prompt_renders_word_not_meaning :
    buildData [{ number := some 1, word := "cat", meaning := "neko" }] false
      = [[Cell.numBox (some 1), Cell.empty, Cell.qBox "cat", Cell.empty, Cell.aBox none,
          Cell.empty, Cell.empty, Cell.empty, Cell.empty, Cell.empty, Cell.empty]] ∧
    fieldValue jaEnMode.questionField { number := some 1, word := "cat", meaning := "neko" }
      = "neko" ∧
    "cat" ≠ "neko" := by
  refine ⟨by decide, rfl, by decide⟩

/-! Story and title handling of `build_pdf` (services/pdf_service.py
    lines 96-151)

The story built by `build_pdf` is `story = []; story.append(table);
doc.build(story)`: its only flowable is the grid table. The function has no
`title` parameter and appends no title paragraph. -/

/-- A ReportLab flowable appended to the document story: the grid table, or
a text paragraph (the shape a rendered title would take). -/
inductive Flowable where
  | table : List (List Cell) → Flowable
  | para : String → Flowable
deriving DecidableEq

/-- Models the story assembled by `build_pdf` lines 99-151:
`story = []`, then `story.append(table)` only. -/
def buildStory (df : List PdfRow) (with_answers : Bool) : List Flowable :=
  [Flowable.table (buildData df with_answers)]

/-- Number of times a title string appears as a text flowable of a story. -/
def titleOccurrences (story : List Flowable) (title : String) : Nat :=
  story.countP (fun f => f == Flowable.para title)

/-- C9 (code bug): the title passed by the caller is never embedded in the
document — `build_pdf` has no `title` parameter (the call site's
`title=title_q` keyword raises `TypeError`), and the story it builds contains
no text flowable at all, so every title string occurs zero times, not once. -/
theorem title_never_embedded (df : List PdfRow) (w : Bool) (title : String) :
    titleOccurrences (buildStory df w) title = 0 := by
  simp [buildStory, titleOccurrences]

/-! Document Combiner, Bundle: `download_zip` (app.py lines 562-600) -/

/-- Models Python `f"{n:02d}"` for a natural number: decimal digits,
zero-filled to a minimum width of 2. -/
def zeroPad2 (n : Nat) : String :=
  let s := toString n
  if s.length < 2 then "0" ++ s else s

/-- One archive entry written by `zf.writestr(path, bytes)`: its internal
path and the identifier whose fetched bytes it stores (byte fetching via
`_read_pdf_bytes_from_identifier` is storage plumbing outside the core, so
the entry records the identifier itself). -/
structure ZipEntry where
  path : String
  ident : String
deriving DecidableEq

/-- The loop body of `download_zip` lines 580-590: for `i` in
`range(pair_count)` with `pair_count = min(len(qs), len(ans))`, write
`copy_{i+1:02d}/questions.pdf` from `qs[i]` and
`copy_{i+1:02d}/answers.pdf` from `ans[i]`. -/
def zipEntries (qs ans : List String) : List ZipEntry :=
  (List.range (min qs.length ans.length)).flatMap (fun i =>
    let folder := "copy_" ++ zeroPad2 (i + 1)
    [{ path := folder ++ "/questions.pdf", ident := qs.getD i "" },
     { path := folder ++ "/answers.pdf", ident := ans.getD i "" }])

/-- Error exits of `download_zip` lines 567-574. -/
inductive ZipError where
  | noFilesSpecified : ZipError
  | notEnoughFiles : ZipError
deriving DecidableEq

/-- Models `download_zip` (app.py lines 562-600): empty-list guards, then the
`min`-truncated pairing loop producing the archive entries in order. -/
def download_zip (qs ans : List String) : Except ZipError (List ZipEntry) :=
  if qs.isEmpty || ans.isEmpty then Except.error ZipError.noFilesSpecified
  else if min qs.length ans.length ≤ 0 then Except.error ZipError.notEnoughFiles
  else Except.ok (zipEntries qs ans)

/-- Indexing a flatMap of two-element blocks over `List.range`: entry `2*k`
is the first element of block `k` and entry `2*k + 1` the second. -/
theorem range_pairFlatMap_getD {α : Type} :
    ∀ (n : Nat) (f g : Nat → α) (k : Nat) (d : α), k < n →
      (((List.range n).flatMap (fun i => [f i, g i])).getD (2 * k) d = f k ∧
       ((List.range n).flatMap (fun i => [f i, g i])).getD (2 * k + 1) d = g k) := by
  intro n
  induction n with
  | zero => intro f g k d hk; omega
  | succ n ih =>
      intro f g k d hk
      rw [List.range_succ_eq_map, List.flatMap_cons, List.flatMap_map]
      match k with
      | 0 => simp
      | k + 1 =>
          have hk2 : k < n := by omega
          have h := ih (fun i => f (i + 1)) (fun i => g (i + 1)) k d hk2
          have e1 : 2 * (k + 1) = 2 * k + 1 + 1 := by omega
          rw [e1]
          simp only [List.cons_append, List.nil_append, List.getD_cons_succ]
          simpa [Nat.succ_eq_add_one] using h

/-- The pair-block flatMap over `List.range n` has length `2 * n`. -/
theorem range_pairFlatMap_length {α : Type} (n : Nat) (f g : Nat → α) :
    ((List.range n).flatMap (fun i => [f i, g i])).length = 2 * n := by
  induction n with
  | zero => simp
  | succ n ih =>
      rw [List.range_succ, List.flatMap_append, List.length_append, ih]
      simp only [List.flatMap_cons, List.flatMap_nil, List.append_nil,
        List.length_cons, List.length_nil]
      omega

/-- C6: for non-empty identifier lists, `download_zip` succeeds (a length
mismatch alone never raises), produces exactly `min(|qs|, |ans|)` folders
(`2 * min` entries), and folder `i` (1-based, zero-padded to width 2)
contains exactly `questions.pdf` from the i-th question identifier followed
by `answers.pdf` from the i-th answer identifier, in list order. -/
theorem bundle_truncation_and_naming (qs ans : List String)
    (hq : qs ≠ []) (ha : ans ≠ []) :
    download_zip qs ans = Except.ok (zipEntries qs ans) ∧
    (zipEntries qs ans).length = 2 * min qs.length ans.length ∧
    (∀ i, i < min qs.length ans.length →
      (zipEntries qs ans).getD (2 * i) { path := "", ident := "" }
        = { path := "copy_" ++ zeroPad2 (i + 1) ++ "/questions.pdf",
            ident := qs.getD i "" } ∧
      (zipEntries qs ans).getD (2 * i + 1) { path := "", ident := "" }
        = { path := "copy_" ++ zeroPad2 (i + 1) ++ "/answers.pdf",
            ident := ans.getD i "" }) := by
  have hqlen : 0 < qs.length := List.length_pos.mpr hq
  have halen : 0 < ans.length := List.length_pos.mpr ha
  have hmin : 0 < min qs.length ans.length := lt_min hqlen halen
  refine ⟨?_, ?_, ?_⟩
  · have h1 : qs.isEmpty = false := by
      simpa [List.isEmpty_iff] using hq
    have h2 : ans.isEmpty = false := by
      simpa [List.isEmpty_iff] using ha
    simp [download_zip, h1, h2, Nat.not_le.mpr hmin]
  · exact range_pairFlatMap_length (min qs.length ans.length) _ _
  · intro i hi
    exact range_pairFlatMap_getD (min qs.length ans.length)
      (fun i => ZipEntry.mk ("copy_" ++ zeroPad2 (i + 1) ++ "/questions.pdf") (qs.getD i ""))
      (fun i => ZipEntry.mk ("copy_" ++ zeroPad2 (i + 1) ++ "/answers.pdf") (ans.getD i ""))
      i (ZipEntry.mk "" "") hi

/-- C6 witness: three question identifiers, two answer identifiers — two
folders, no failure. -/
theorem bundle_truncation_and_naming_witness :
    (["q1", "q2", "q3"] : List String) ≠ [] ∧ (["a1", "a2"] : List String) ≠ [] ∧
    (download_zip ["q1", "q2", "q3"] ["a1", "a2"]
        = Except.ok (zipEntries ["q1", "q2", "q3"] ["a1", "a2"]) ∧
      (zipEntries ["q1", "q2", "q3"] ["a1", "a2"]).length
        = 2 * min (["q1", "q2", "q3"] : List String).length
            (["a1", "a2"] : List String).length ∧
      (∀ i, i < min (["q1", "q2", "q3"] : List String).length
              (["a1", "a2"] : List String).length →
        (zipEntries ["q1", "q2", "q3"] ["a1", "a2"]).getD (2 * i) { path := "", ident := "" }
          = { path := "copy_" ++ zeroPad2 (i + 1) ++ "/questions.pdf",
              ident := (["q1", "q2", "q3"] : List String).getD i "" } ∧
        (zipEntries ["q1", "q2", "q3"] ["a1", "a2"]).getD (2 * i + 1)
            { path := "", ident := "" }
          = { path := "copy_" ++ zeroPad2 (i + 1) ++ "/answers.pdf",
              ident := (["a1", "a2"] : List String).getD i "" })) :=
  ⟨by decide, by decide,
    bundle_truncation_and_naming ["q1", "q2", "q3"] ["a1", "a2"] (by decide) (by decide)⟩

/-! Set Generator: the POST branch of `make` (app.py lines 296-499)

The request-level form validation (`num_questions`, `num_sets`, quota
enforcement, lines 300-335) is routing plumbing outside the core, so the
embedding starts at the Excel load (line 338) with already-parsed integer
inputs. Each `flash(...) ; return redirect(...)` error exit is a distinct
`Except.error` constructor, in source order. -/

/-- One loaded table row. `number` is the `pd.to_numeric(..., "coerce")`
value (`none` for a non-coercible cell), `sectionVal` the
`astype(str)`-stringified section cell. -/
structure TableRow where
  word : String
  meaning : String
  number : Option Int
  sectionVal : String
deriving DecidableEq

/-- A loaded table: its column names (`df.columns`) and rows. -/
structure Table where
  cols : List String
  rows : List TableRow
deriving DecidableEq

/-- The error exits of the `make` POST branch, one constructor per
`flash`/`redirect` site, in source order (app.py lines 342-499). -/
inductive MakeError where
  | schemaError (missing : List String) : MakeError
  | sectionsRequired : MakeError
  | emptySectionSelection : MakeError
  | numberColumnRequired : MakeError
  | noValidNumbers : MakeError
  | validationStartEnd : MakeError
  | emptyRange : MakeError
  | invalidMode : MakeError
  | pdfCreationFailed : MakeError
deriving DecidableEq

/-- The parameter names of `build_pdf`'s Python signature
(services/pdf_service.py line 96): `def build_pdf(df, styles, with_answers=False)`. -/
def buildPdfParams : List String := ["df", "styles", "with_answers"]

/-- The keyword-argument names of the `build_pdf` calls in `make`
(app.py lines 455-471). -/
def buildPdfCallKwargs : List String := ["with_answers", "question_col", "answer_col", "title"]

/-- Python call semantics: a call raises `TypeError` when some keyword
argument is not among the callee's parameter names. -/
def callRaisesTypeError (params kwargs : List String) : Bool :=
  kwargs.any (fun k => !(params.contains k))

/-- Whether an `Except` value is a success. -/
def isOkE {ε α : Type} : Except ε α → Bool
  | Except.ok _ => true
  | Except.error _ => false

/-- The range predicate of app.py line 402:
`(df["number"] >= start_num) & (df["number"] <= end_num)` on rows whose
`number` coerced successfully. -/
def inRange (startNum endNum : Int) (r : TableRow) : Bool :=
  match r.number with
  | some v => decide (startNum ≤ v) && decide (v ≤ endNum)
  | none => false

/-- Models the table-processing core of the `make` POST branch
(app.py lines 338-499):
1. schema check `required - set(df.columns)` with `required = {"word", "meaning"}`
   (lines 342-346; the Python `sorted` of the set difference is the
   alphabetically ordered filter below);
2. dispatch on `"section" in df.columns` (line 350);
3. section mode (lines 356-375): selected-section non-emptiness, membership
   filter on the stringified section value, empty-result check (the
   display-only integer re-cast of `number`, lines 369-373, changes no row
   selection and is dropped);
4. range mode (lines 379-407): `number` column presence, numeric coercion
   filter, empty check, `start_num > end_num` validation, inclusive range
   filter, empty check;
5. `n = min(num_questions, len(df))` (line 414) and mode dispatch
   (lines 416-424);
6. the per-set loop (lines 440-471): each set draws
   `df.sample(n=n).reset_index(drop=True)` — modelled as `take n` of
   `shuffle set_idx`, the random permutation of the filtered pool for set
   `set_idx` — and calls `build_pdf` with keyword arguments
   `question_col`, `answer_col`, `title` that `build_pdf` does not accept,
   so the first call raises `TypeError`, caught by the enclosing
   `try`/`except` (lines 497-499) as the generic PDF-creation failure. -/
def make (t : Table) (sectionsSelected : List String) (startNum endNum : Int)
    (numQuestions : Nat) (numSets : Nat) (mode : String)
    (shuffle : Nat → List TableRow) : Except MakeError (List (List TableRow)) :=
  let missing := (["meaning", "word"]).filter (fun c => !(t.cols.contains c))
  if !missing.isEmpty then Except.error (MakeError.schemaError missing)
  else
    let filteredE : Except MakeError (List TableRow) :=
      if t.cols.contains "section" then
        if sectionsSelected.isEmpty then Except.error MakeError.sectionsRequired
        else
          let dfS := t.rows.filter (fun r => sectionsSelected.contains r.sectionVal)
          if dfS.isEmpty then Except.error MakeError.emptySectionSelection
          else Except.ok dfS
      else
        if !(t.cols.contains "number") then Except.error MakeError.numberColumnRequired
        else
          let dfN := t.rows.filter (fun r => r.number.isSome)
          if dfN.isEmpty then Except.error MakeError.noValidNumbers
          else if startNum > endNum then Except.error MakeError.validationStartEnd
          else
            let dfR := dfN.filter (inRange startNum endNum)
            if dfR.isEmpty then Except.error MakeError.emptyRange
            else Except.ok dfR
    match filteredE with
    | Except.error e => Except.error e
    | Except.ok df =>
        let n := min numQuestions df.length
        if mode = "en-ja" ∨ mode = "ja-en" then
          if callRaisesTypeError buildPdfParams buildPdfCallKwargs then
            Except.error MakeError.pdfCreationFailed
          else
            Except.ok ((List.range numSets).map (fun k => (shuffle (k + 1)).take n))
        else Except.error MakeError.invalidMode

/-- C7: a table whose columns lack `meaning` (or `word`) fails with the
schema error listing the missing required columns, before any filtering or
sampling — the outcome is this error for every row content, every selection
input and every random source. -/
theorem missing_column_schema_error (t : Table) (sectionsSelected : List String)
    (startNum endNum : Int) (numQuestions numSets : Nat) (mode : String)
    (shuffle : Nat → List TableRow)
    (h : "meaning" ∉ t.cols ∨ "word" ∉ t.cols) :
    make t sectionsSelected startNum endNum numQuestions numSets mode shuffle
      = Except.error (MakeError.schemaError
          ((["meaning", "word"]).filter (fun c => !(t.cols.contains c)))) := by
  by_cases hm2 : "meaning" ∈ t.cols <;> by_cases hw2 : "word" ∈ t.cols
  · rcases h with h | h <;> contradiction
  · simp [make, List.filter, hm2, hw2]
  · simp [make, List.filter, hm2, hw2]
  · simp [make, List.filter, hm2, hw2]

/-- C7 witness: a table with a `word` column but no `meaning` column. -/
theorem missing_column_schema_error_witness :
    ("meaning" ∉ (["word", "number"] : List String) ∨
      "word" ∉ (["word", "number"] : List String)) ∧
    make (Table.mk ["word", "number"]
        [TableRow.mk "w1" "m1" (some 1) "A"]) [] 1 5 3 1 "en-ja" (fun _ => [])
      = Except.error (MakeError.schemaError
          ((["meaning", "word"]).filter
            (fun c => !((["word", "number"] : List String).contains c)))) :=
  ⟨by decide,
    missing_column_schema_error (Table.mk ["word", "number"]
      [TableRow.mk "w1" "m1" (some 1) "A"]) [] 1 5 3 1 "en-ja" (fun _ => [])
      (by decide)⟩

/-- C8 counterexample: a range-mode request with `start = 5 > 1 = end` on a
schema-valid table whose `number` column has no coercible value fails with
the `noValidNumbers` exit (app.py lines 384-387), which precedes the
`start_num > end_num` check (lines 398-400) — not with the validation
error the claim requires. -/
theorem start_gt_end_not_always_validation_error :
    make (Table.mk ["word", "meaning", "number"]
        [TableRow.mk "w1" "m1" none "A"]) [] 5 1 3 1 "en-ja" (fun _ => [])
      = Except.error MakeError.noValidNumbers ∧
    MakeError.noValidNumbers ≠ MakeError.validationStartEnd ∧
    (5 : Int) > 1 := by
  refine ⟨rfl, by decide, by decide⟩

/-- C8 (amended): a range-mode request (schema-valid table, no `section`
column, `number` column present) whose coerced `number` column is non-empty
and whose bounds satisfy `start > end` fails with the validation error, for
every requested count, set count, mode and random source — no sampling or
rendering is performed. -/
theorem start_gt_end_validation_error (t : Table) (sectionsSelected : List String)
    (startNum endNum : Int) (numQuestions numSets : Nat) (mode : String)
    (shuffle : Nat → List TableRow)
    (hm : "meaning" ∈ t.cols) (hw : "word" ∈ t.cols)
    (hs : "section" ∉ t.cols) (hn : "number" ∈ t.cols)
    (hcoerce : t.rows.filter (fun r => r.number.isSome) ≠ [])
    (hgt : startNum > endNum) :
    make t sectionsSelected startNum endNum numQuestions numSets mode shuffle
      = Except.error MakeError.validationStartEnd := by
  simp [make, List.filter, hm, hw, hs, hn, hcoerce, hgt, List.isEmpty_iff]

/-- C8 amended-claim witness: a one-row coercible table with `start = 5`,
`end = 1`. -/
theorem start_gt_end_validation_error_witness :
    ("meaning" ∈ (["word", "meaning", "number"] : List String) ∧
      "word" ∈ (["word", "meaning", "number"] : List String) ∧
      "section" ∉ (["word", "meaning", "number"] : List String) ∧
      "number" ∈ (["word", "meaning", "number"] : List String) ∧
      (([TableRow.mk "w1" "m1" (some 2) "A"]).filter (fun r => r.number.isSome) ≠ []) ∧
      (5 : Int) > 1) ∧
    make (Table.mk ["word", "meaning", "number"]
        [TableRow.mk "w1" "m1" (some 2) "A"]) [] 5 1 3 1 "en-ja" (fun _ => [])
      = Except.error MakeError.validationStartEnd :=
  ⟨⟨by decide, by decide, by decide, by decide, by decide, by decide⟩,
    start_gt_end_validation_error (Table.mk ["word", "meaning", "number"]
      [TableRow.mk "w1" "m1" (some 2) "A"]) [] 5 1 3 1 "en-ja" (fun _ => [])
      (by decide) (by decide) (by decide) (by decide) (by decide) (by decide)⟩

/-- C10: the `build_pdf` calls of `make` pass the keyword arguments
`question_col`, `answer_col` and `title`, which `build_pdf`'s signature does
not accept, so the first rendering call raises `TypeError`; consequently the
generation pipeline never succeeds — for every table, selection, count, mode
and random source its result is an error (any batch that passes all
selection checks aborts with the generic PDF-creation failure), and no
documents are ever stored. -/
theorem render_call_type_error_aborts_all_batches :
    callRaisesTypeError buildPdfParams buildPdfCallKwargs = true ∧
    (∀ (t : Table) (sectionsSelected : List String) (startNum endNum : Int)
      (numQuestions numSets : Nat) (mode : String) (shuffle : Nat → List TableRow),
      isOkE (make t sectionsSelected startNum endNum numQuestions numSets mode shuffle)
        = false) := by
  refine ⟨by decide, ?_⟩
  intro t sectionsSelected startNum endNum numQuestions numSets mode shuffle
  cases hres : make t sectionsSelected startNum endNum numQuestions numSets mode shuffle with
  | error e => rfl
  | ok res =>
      exfalso
      simp only [make] at hres
      repeat' split at hres <;>
        try simp_all [callRaisesTypeError, buildPdfParams, buildPdfCallKwargs]

end VocabQuiz
